import Mathlib

/-!
Shallow embedding of the Zomato dashboard's data-aggregation layer
(src/dashboard_simple.py).  The loaded spreadsheet is modelled as a
`Table`: a list of rows together with one flag per optional column
recording whether that column is present in the file.  Cell-level
missing values (pandas NaN) are modelled with `Option`.  Numeric cells
are rationals.  A pandas operation that can raise is embedded in
`Except String`; a chart/metric that the script skips when its guard
fails is embedded in `Option` (with `none` for "omitted").
-/

namespace Zomato

/-- One row of the loaded restaurant table.  Each cell is optional,
modelling a NaN entry in the corresponding column. -/
structure Row where
  name : Option String
  rate : Option ℚ
  location : Option String
  cost : Option ℚ
  cuisines : Option String
  rtype : Option String
deriving DecidableEq

/-- The loaded dataframe: per-column presence flags (the script tests
membership in `df.columns` before most computations) plus the rows. -/
structure Table where
  hasName : Bool
  hasRate : Bool
  hasLocation : Bool
  hasCost : Bool
  hasCuisines : Bool
  hasRtype : Bool
  rows : List Row
deriving DecidableEq

/-- Series.mean with pandas NaN-skipping: the mean of the non-missing
entries, `none` (NaN) when there are no non-missing entries. -/
def seriesMean (xs : List (Option ℚ)) : Option ℚ :=
  let vs := xs.filterMap id
  if vs.length = 0 then none else some (vs.sum / (vs.length : ℚ))

/-- Keep the first occurrence of each value, in order of first
appearance; `seen` accumulates the values already emitted. -/
def firstSeenAux {α : Type} [DecidableEq α] (seen : List α) : List α → List α
  | [] => []
  | x :: xs => if x ∈ seen then firstSeenAux seen xs else x :: firstSeenAux (x :: seen) xs

/-- The distinct values of a list in first-seen order (the key order of
the pandas value-counting hash table). -/
def firstSeen {α : Type} [DecidableEq α] (l : List α) : List α :=
  firstSeenAux [] l

/-- Series.nunique: the number of distinct non-missing values. -/
def nunique {α : Type} [DecidableEq α] (col : List (Option α)) : Nat :=
  (firstSeen (col.filterMap id)).length

/-- The (value, count) pairs of the non-missing entries of a column, in
first-seen order of the values. -/
def keyCounts {α : Type} [DecidableEq α] (col : List (Option α)) : List (α × Nat) :=
  let vs := col.filterMap id
  (firstSeen vs).map (fun k => (k, vs.count k))

/-- Descending-count comparison used to sort value counts: `a` may come
before `b` when `b`'s count is at most `a`'s. -/
def cdesc {α : Type} : (α × Nat) → (α × Nat) → Prop :=
  fun a b => b.2 ≤ a.2

instance cdescDecidable {α : Type} : DecidableRel (@cdesc α) :=
  fun a b => Nat.decLe b.2 a.2

instance cdescTotal {α : Type} : IsTotal (α × Nat) cdesc :=
  ⟨fun a b => Nat.le_total b.2 a.2⟩

instance cdescTrans {α : Type} : IsTrans (α × Nat) cdesc :=
  ⟨fun _ _ _ hab hbc => le_trans hbc hab⟩

/-- Series.value_counts: drop NaN, count each distinct value, sort
descending by count with a stable sort (ties keep first-seen order). -/
def valueCounts {α : Type} [DecidableEq α] (col : List (Option α)) : List (α × Nat) :=
  List.insertionSort cdesc (keyCounts col)

/-- value_counts().head(n): the top-n frequency query. -/
def topNCounts {α : Type} [DecidableEq α] (col : List (Option α)) (n : Nat) : List (α × Nat) :=
  (valueCounts col).take n

/-- Overview metric: `df['rate'].mean() if 'rate' in df.columns else 0`. -/
def avg_rating (t : Table) : Option ℚ :=
  if t.hasRate then seriesMean (t.rows.map Row.rate) else some 0

/-- Overview metric: `df['name'].nunique()` (unguarded in the script). -/
def total_restaurants (t : Table) : Nat :=
  nunique (t.rows.map Row.name)

/-- Overview metric: `df['location'].nunique() if 'location' in df.columns else 0`. -/
def total_cities (t : Table) : Nat :=
  if t.hasLocation then nunique (t.rows.map Row.location) else 0

/-- Overview metric: mean cost, 0 when the cost column is absent. -/
def avg_cost (t : Table) : Option ℚ :=
  if t.hasCost then seriesMean (t.rows.map Row.cost) else some 0

/-- Top 10 view: `df['cuisines'].value_counts().head(10)`, omitted
(`none`) when the cuisines column is absent. -/
def cuisine_counts (t : Table) : Option (List (String × Nat)) :=
  if t.hasCuisines then some (topNCounts (t.rows.map Row.cuisines) 10) else none

/-- Customer Insights view: `df['rest_type'].value_counts().head(8)`,
omitted when the column is absent. -/
def rtype_counts (t : Table) : Option (List (String × Nat)) :=
  if t.hasRtype then some (topNCounts (t.rows.map Row.rtype) 8) else none

/-- `.round(2)` on a rational: round half to even at two decimal places,
as pandas does. -/
def round2 (x : ℚ) : ℚ :=
  let y := x * 100
  let n : ℤ := ⌊y⌋
  let f : ℚ := y - (n : ℚ)
  let m : ℤ :=
    if f < 1/2 then n
    else if 1/2 < f then n + 1
    else if n % 2 = 0 then n else n + 1
  (m : ℚ) / 100

/-- The rows of the group keyed by location `loc` under
`df.groupby('location')` (a NaN location belongs to no group). -/
def groupRows (rows : List Row) (loc : String) : List Row :=
  rows.filter (fun r => decide (r.location = some loc))

/-- The rounded mean of the `rate` column within the location group
(the `'rate': 'mean'` entry of the `.agg` call, after `.round(2)`). -/
def groupMeanRate (rows : List Row) (loc : String) : Option ℚ :=
  Option.map round2 (seriesMean ((groupRows rows loc).map Row.rate))

/-- The rounded mean of the cost column within the location group. -/
def groupMeanCost (rows : List Row) (loc : String) : Option ℚ :=
  Option.map round2 (seriesMean ((groupRows rows loc).map Row.cost))

/-- The `'name': 'count'` entry of the `.agg` call: the number of
non-missing names within the location group. -/
def groupNameCount (rows : List Row) (loc : String) : Nat :=
  (((groupRows rows loc).map Row.name).filterMap id).length

/-- The mapping computed by `df.groupby('location').agg({'rate':
'mean'}).round(2)`: `none` when `loc` keys no group, otherwise the
group's rounded mean rate (`some none` when all rates in the group are
NaN). -/
def locationMeanRating (rows : List Row) (loc : String) : Option (Option ℚ) :=
  if (groupRows rows loc).isEmpty then none else some (groupMeanRate rows loc)

/-- groupby sort=True: the group keys, sorted ascending. -/
def groupKeys (rows : List Row) : List String :=
  List.insertionSort (fun a b => a ≤ b) (firstSeen (rows.filterMap Row.location))

/-- One line of the Performance Metrics location table: key, rounded
mean rate, rounded mean cost, name count. -/
def aggEntry (rows : List Row) (loc : String) : String × Option ℚ × Option ℚ × Nat :=
  (loc, groupMeanRate rows loc, groupMeanCost rows loc, groupNameCount rows loc)

/-- Comparison of optional means for `sort_values('rate',
ascending=False)`: a NaN mean sorts after every number. -/
def optLeRate : Option ℚ → Option ℚ → Bool
  | none, _ => true
  | some _, none => false
  | some x, some y => decide (x ≤ y)

/-- The body of the Performance Metrics location table:
`df.groupby('location').agg({...}).round(2).sort_values('rate',
ascending=False).head(10)`. -/
def locationAgg (rows : List Row) : List (String × Option ℚ × Option ℚ × Nat) :=
  (List.insertionSort (fun a b => optLeRate b.2.1 a.2.1 = true)
    ((groupKeys rows).map (aggEntry rows))).take 10

/-- The Location Performance query of the Performance Metrics view.
The outer guard checks only the location and rate columns; the `.agg`
dict then also reads the cost and name columns, and pandas raises a
KeyError when a column named in the dict is missing. -/
def location_stats (t : Table) :
    Option (Except String (List (String × Option ℚ × Option ℚ × Nat))) :=
  if t.hasLocation && t.hasRate then
    some
      (if t.hasCost = false then
        Except.error "KeyError: approx_cost(for two people)"
      else if t.hasName = false then
        Except.error "KeyError: name"
      else
        Except.ok (locationAgg t.rows))
  else none

/-- The four cost tiers of the Premium vs Budget chart. -/
inductive CostTier where
  | budget
  | midrange
  | premium
  | luxury
deriving DecidableEq

/-- `pd.cut(cost, bins=[0, 500, 1000, 2000, inf], labels=['Budget',
'Mid-range', 'Premium', 'Luxury'])` for one cell: the bins are
left-open and right-closed, and a value outside every bin (or a NaN
cell) is categorized as NaN. -/
def cost_category (c : Option ℚ) : Option CostTier :=
  match c with
  | none => none
  | some v =>
    if 0 < v ∧ v ≤ 500 then some CostTier.budget
    else if 500 < v ∧ v ≤ 1000 then some CostTier.midrange
    else if 1000 < v ∧ v ≤ 2000 then some CostTier.premium
    else if 2000 < v then some CostTier.luxury
    else none

/-- `df_cost['cost_category'].value_counts()`: tier frequencies over
the derived column (value_counts drops the NaN entries). -/
def cost_dist (rows : List Row) : List (CostTier × Nat) :=
  valueCounts (rows.map (fun r => cost_category r.cost))

/-- Modelled pandas `DataFrame.sample(n)`: the pseudo-random choice of
rows is abstracted to the first `n` rows; what matters here is that the
result has exactly `n` rows and that sampling more rows than the frame
holds raises a ValueError. -/
def sample (rows : List Row) (n : Nat) : Except String (List Row) :=
  if n ≤ rows.length then Except.ok (rows.take n)
  else Except.error "ValueError: Cannot take a larger sample than population"

/-- The Cost vs Rating scatter of the Customer Insights view:
`px.scatter(df.sample(500), ...)` behind a guard on the cost and rate
columns. -/
def customer_scatter (t : Table) : Option (Except String (List Row)) :=
  if t.hasCost && t.hasRate then some (sample t.rows 500) else none

/-- rate value of a row for sorting; only applied to rows whose rate is
present. -/
def rateV (r : Row) : ℚ :=
  r.rate.getD 0

/-- Descending-rate comparison: `a` may come before `b` when `b`'s rate
is at most `a`'s. -/
def rdesc : Row → Row → Prop :=
  fun a b => rateV b ≤ rateV a

instance rdescDecidable : DecidableRel rdesc :=
  fun a b => inferInstanceAs (Decidable (rateV b ≤ rateV a))

instance rdescTotal : IsTotal Row rdesc :=
  ⟨fun a b => le_total (rateV b) (rateV a)⟩

instance rdescTrans : IsTrans Row rdesc :=
  ⟨fun _ _ _ hab hbc => le_trans hbc hab⟩

/-- `df.nlargest(n, 'rate')`: drop rows whose rate is NaN, stable-sort
descending by rate (keep='first' resolves ties towards earlier rows),
keep the first `n`. -/
def nlargestRate (rows : List Row) (n : Nat) : List Row :=
  (List.insertionSort rdesc (rows.filter (fun r => r.rate.isSome))).take n

/-- The displayed columns of the Top Rated Restaurants table. -/
def projTop (r : Row) : Option String × Option ℚ × Option String × Option String :=
  (r.name, r.rate, r.location, r.cuisines)

/-- The Top Rated Restaurants query:
`df.nlargest(10, 'rate')[['name', 'rate', 'location', 'cuisines']]`
behind a guard on the name and rate columns only.  The projection then
selects the location and cuisines columns as well, and pandas raises a
KeyError when a selected column is missing from the frame. -/
def top_rated (t : Table) :
    Option (Except String (List (Option String × Option ℚ × Option String × Option String))) :=
  if t.hasName && t.hasRate then
    some
      (if t.hasLocation = false then
        Except.error "KeyError: ['location'] not in index"
      else if t.hasCuisines = false then
        Except.error "KeyError: ['cuisines'] not in index"
      else
        Except.ok ((nlargestRate t.rows 10).map projTop))
  else none

/-- The process state visible to the queries: the one cached dataframe
loaded at startup. -/
structure DashState where
  df : Table
deriving DecidableEq

/-- Running the Total Restaurants metric against the state. -/
def runTotalRestaurants (s : DashState) : Nat × DashState :=
  (total_restaurants s.df, s)

/-- Running the Avg Rating metric against the state. -/
def runAvgRating (s : DashState) : Option ℚ × DashState :=
  (avg_rating s.df, s)

/-- Running the Locations metric against the state. -/
def runTotalCities (s : DashState) : Nat × DashState :=
  (total_cities s.df, s)

/-- Running the Avg Cost metric against the state. -/
def runAvgCost (s : DashState) : Option ℚ × DashState :=
  (avg_cost s.df, s)

/-- Running the Top Cuisines query against the state. -/
def runCuisineCounts (s : DashState) : Option (List (String × Nat)) × DashState :=
  (cuisine_counts s.df, s)

/-- Running the Restaurant Types query against the state. -/
def runRtypeCounts (s : DashState) : Option (List (String × Nat)) × DashState :=
  (rtype_counts s.df, s)

/-- Running the Location Performance query against the state. -/
def runLocationStats (s : DashState) :
    Option (Except String (List (String × Option ℚ × Option ℚ × Nat))) × DashState :=
  (location_stats s.df, s)

/-- Running the Top Rated Restaurants query against the state. -/
def runTopRated (s : DashState) :
    Option (Except String (List (Option String × Option ℚ × Option String × Option String)))
      × DashState :=
  (top_rated s.df, s)

/-- Running the Premium vs Budget query against the state.  The script
takes `df_cost = df.copy()` and assigns the derived `cost_category`
column to that copy only; the copy and its extra column are local to
the query. -/
def runCostDist (s : DashState) : Option (List (CostTier × Nat)) × DashState :=
  if s.df.hasCost then
    let dfCopy := s.df
    let tiers := dfCopy.rows.map (fun r => cost_category r.cost)
    (some (valueCounts tiers), s)
  else (none, s)

/-! ### Example data used by the concrete claims -/

/-- The three rows of the worked example in the spec:
(A, 4.5, "X"), (B, 3.0, "Y"), (C, 4.5, "X"). -/
def exRows : List Row :=
  [⟨some "A", some (9/2), some "X", none, none, none⟩,
   ⟨some "B", some 3, some "Y", none, none, none⟩,
   ⟨some "C", some (9/2), some "X", none, none, none⟩]

/-- The cuisine column of the spec's top-2 example. -/
def col8 : List (Option String) :=
  [some "Italian", some "Italian", some "Thai", some "Thai", some "Thai", some "Indian"]

/-- A table that has the location, rate and name columns but lacks the
cost column. -/
def tNoCost : Table :=
  ⟨true, true, true, false, true, true, exRows⟩

/-- A table that lacks the rate column. -/
def tNoRate : Table :=
  ⟨true, false, true, true, true, true, exRows⟩

/-- A table that has the name and rate columns but lacks the location
column. -/
def tNoLoc : Table :=
  ⟨true, true, false, true, true, true, exRows⟩

/-- A table with every column present and only the three example rows. -/
def tFull : Table :=
  ⟨true, true, true, true, true, true, exRows⟩

/-! ### Helper lemmas -/

/-- The Boolean test selecting the pairs with count `c`. -/
def hasCount {α : Type} (c : Nat) : (α × Nat) → Bool :=
  fun p => decide (p.2 = c)

theorem filterCount_orderedInsert {α : Type} [DecidableEq α] (x : α × Nat) (c : Nat) :
    ∀ s : List (α × Nat),
      (List.orderedInsert cdesc x s).filter (hasCount c) =
        if x.2 = c then x :: s.filter (hasCount c) else s.filter (hasCount c)
  | [] => by
      by_cases hx : x.2 = c <;> simp [List.orderedInsert, hasCount, hx]
  | y :: s => by
      by_cases hr : cdesc x y
      · by_cases hx : x.2 = c <;>
          simp [List.orderedInsert, if_pos hr, List.filter_cons, hasCount, hx]
      · have ih := filterCount_orderedInsert x c s
        by_cases hx : x.2 = c
        · have hy : ¬ y.2 = c := by
            intro hy
            exact hr (le_of_eq (hy.trans hx.symm))
          simp [List.orderedInsert, if_neg hr, List.filter_cons, hasCount, hx, hy, ih]
        · by_cases hy : y.2 = c <;>
            simp [List.orderedInsert, if_neg hr, List.filter_cons, hasCount, hx, hy, ih]

theorem filterCount_insertionSort {α : Type} [DecidableEq α] (c : Nat) :
    ∀ l : List (α × Nat),
      (List.insertionSort cdesc l).filter (hasCount c) = l.filter (hasCount c)
  | [] => rfl
  | a :: l => by
      have ih := filterCount_insertionSort c l
      by_cases ha : a.2 = c <;>
        simp [List.insertionSort, filterCount_orderedInsert, List.filter_cons,
          hasCount, ha, ih]

theorem firstSeenAux_subset {α : Type} [DecidableEq α] :
    ∀ (l : List α) (seen : List α), firstSeenAux seen l ⊆ l
  | [], _ => by simp [firstSeenAux]
  | x :: xs, seen => by
      unfold firstSeenAux
      split
      · exact (firstSeenAux_subset xs seen).trans (List.subset_cons_self x xs)
      · exact List.cons_subset_cons x (firstSeenAux_subset xs (x :: seen))

theorem firstSeen_subset {α : Type} [DecidableEq α] (l : List α) : firstSeen l ⊆ l :=
  firstSeenAux_subset l []

theorem seriesMean_perm {xs ys : List (Option ℚ)} (h : xs.Perm ys) :
    seriesMean xs = seriesMean ys := by
  have h2 : (xs.filterMap id).Perm (ys.filterMap id) := h.filterMap id
  simp only [seriesMean]
  rw [h2.length_eq, h2.sum_eq]

/-! ### Claims -/

/-- Claim C1: the spec states that a query depending on a missing
column returns its documented default and never raises.  The
average-rating metric does return 0 when the rating column is absent,
but the group-by-location aggregation reads the cost column behind a
guard that only checks the location and rate columns, so it raises a
KeyError instead of returning a default when the cost column is absent:
the code contradicts the spec's stated error policy. -/
theorem c1_missing_cost_column_raises :
    avg_rating tNoRate = some 0 ∧
    location_stats tNoCost = some (Except.error "KeyError: approx_cost(for two people)") :=
  ⟨rfl, rfl⟩

/-- Claim C2: the cost-tier categorization assigns cost 500 to Budget,
costs in 501–1000 to Mid-range, costs in 1001–2000 to Premium, and
costs above 2000 to Luxury, with exact boundaries. -/
theorem c2_cost_tier_boundaries (v : ℚ) :
    (v = 500 → cost_category (some v) = some CostTier.budget) ∧
    (501 ≤ v → v ≤ 1000 → cost_category (some v) = some CostTier.midrange) ∧
    (1001 ≤ v → v ≤ 2000 → cost_category (some v) = some CostTier.premium) ∧
    (2000 < v → cost_category (some v) = some CostTier.luxury) := by
  refine ⟨?_, ?_, ?_, ?_⟩
  · rintro rfl
    norm_num [cost_category]
  · intro h1 h2
    have hB : (500 : ℚ) < v ∧ v ≤ 1000 := ⟨by linarith, h2⟩
    have hA : ¬ ((0 : ℚ) < v ∧ v ≤ 500) := by
      rintro ⟨_, h⟩
      linarith
    simp only [cost_category]
    rw [if_neg hA, if_pos hB]
  · intro h1 h2
    have hA : ¬ ((0 : ℚ) < v ∧ v ≤ 500) := by
      rintro ⟨_, h⟩
      linarith
    have hB : ¬ ((500 : ℚ) < v ∧ v ≤ 1000) := by
      rintro ⟨_, h⟩
      linarith
    have hC : (1000 : ℚ) < v ∧ v ≤ 2000 := ⟨by linarith, h2⟩
    simp only [cost_category]
    rw [if_neg hA, if_neg hB, if_pos hC]
  · intro h1
    have hA : ¬ ((0 : ℚ) < v ∧ v ≤ 500) := by
      rintro ⟨_, h⟩
      linarith
    have hB : ¬ ((500 : ℚ) < v ∧ v ≤ 1000) := by
      rintro ⟨_, h⟩
      linarith
    have hC : ¬ ((1000 : ℚ) < v ∧ v ≤ 2000) := by
      rintro ⟨_, h⟩
      linarith
    simp only [cost_category]
    rw [if_neg hA, if_neg hB, if_neg hC, if_pos h1]

/-- Witness for C2 at the concrete costs 500, 750, 1500 and 2500. -/
theorem c2_cost_tier_boundaries_witness :
    cost_category (some 500) = some CostTier.budget ∧
    cost_category (some 750) = some CostTier.midrange ∧
    cost_category (some 1500) = some CostTier.premium ∧
    cost_category (some 2500) = some CostTier.luxury :=
  ⟨(c2_cost_tier_boundaries 500).1 rfl,
   (c2_cost_tier_boundaries 750).2.1 (by norm_num) (by norm_num),
   (c2_cost_tier_boundaries 1500).2.2.1 (by norm_num) (by norm_num),
   (c2_cost_tier_boundaries 2500).2.2.2 (by norm_num)⟩

/-- Claim C7: on the example rows (A,4.5,X), (B,3.0,Y), (C,4.5,X), the
group-by-location mean rating for location X is 4.5. -/
theorem c7_mean_rating_example :
    locationMeanRating exRows "X" = some (some (9/2)) := by
  simp [locationMeanRating, groupRows, groupMeanRate, seriesMean, round2, exRows,
    List.filter]
  norm_num

/-- Claim C8: the top-2 frequency query over the cuisine column
[Italian, Italian, Thai, Thai, Thai, Indian] returns exactly
[(Thai, 3), (Italian, 2)]. -/
theorem c8_top2_cuisines_example :
    topNCounts col8 2 = [("Thai", 3), ("Italian", 2)] := by
  decide

/-- Claim C3: the top-N frequency query returns at most N pairs, sorted
descending by count, each pair being a value of the column with its
exact occurrence count, and pairs of equal count keep the first-seen
order of their values (the filter at each count level is a sublist of
the first-seen-ordered count list). -/
theorem c3_topn_sorted_counts {α : Type} [DecidableEq α]
    (col : List (Option α)) (n : Nat) :
    (topNCounts col n).length ≤ n ∧
    (topNCounts col n).Pairwise cdesc ∧
    (∀ p ∈ topNCounts col n,
      p.1 ∈ col.filterMap id ∧ p.2 = (col.filterMap id).count p.1) ∧
    (∀ c : Nat,
      List.Sublist ((topNCounts col n).filter (hasCount c))
        ((keyCounts col).filter (hasCount c))) := by
  refine ⟨List.length_take_le n _, ?_, ?_, ?_⟩
  · exact (List.sorted_insertionSort cdesc (keyCounts col)).sublist
      (List.take_sublist n _)
  · intro p hp
    have hp2 : p ∈ valueCounts col := List.take_subset n _ hp
    have hp3 : p ∈ keyCounts col :=
      (List.perm_insertionSort cdesc (keyCounts col)).subset hp2
    simp only [keyCounts, List.mem_map] at hp3
    obtain ⟨k, hk, rfl⟩ := hp3
    exact ⟨firstSeen_subset _ hk, rfl⟩
  · intro c
    have h1 : List.Sublist ((topNCounts col n).filter (hasCount c))
        ((valueCounts col).filter (hasCount c)) :=
      (List.take_sublist n _).filter (hasCount c)
    have h2 : (valueCounts col).filter (hasCount c) =
        (keyCounts col).filter (hasCount c) :=
      filterCount_insertionSort c (keyCounts col)
    exact h2 ▸ h1

/-- Witness for C3 on the top-2 example column: the result has at most
two entries and the entry (Thai, 3) carries Thai's exact count. -/
theorem c3_topn_sorted_counts_witness :
    (topNCounts col8 2).length ≤ 2 ∧
    ("Thai" ∈ col8.filterMap id ∧ (3 : Nat) = (col8.filterMap id).count "Thai") := by
  refine ⟨(c3_topn_sorted_counts col8 2).1, ?_⟩
  have h := (c3_topn_sorted_counts col8 2).2.2.1 ("Thai", 3) (by decide)
  exact ⟨h.1, h.2⟩

/-- Claim C4: the group-by-location mean-rating mapping is unchanged
when the rows of the input table are permuted. -/
theorem c4_location_mean_perm_invariant (rows rows' : List Row)
    (h : rows.Perm rows') (loc : String) :
    locationMeanRating rows loc = locationMeanRating rows' loc := by
  have hg : (groupRows rows loc).Perm (groupRows rows' loc) := h.filter _
  have hm : groupMeanRate rows loc = groupMeanRate rows' loc := by
    simp only [groupMeanRate]
    rw [seriesMean_perm (hg.map Row.rate)]
  have he : (groupRows rows loc).isEmpty = (groupRows rows' loc).isEmpty := by
    rw [Bool.eq_iff_iff, List.isEmpty_iff_length_eq_zero,
      List.isEmpty_iff_length_eq_zero, hg.length_eq]
  simp only [locationMeanRating, he, hm]

/-- Witness for C4: the example table reversed yields the same mean
rating for location X as the original. -/
theorem c4_location_mean_perm_invariant_witness :
    locationMeanRating exRows.reverse "X" = locationMeanRating exRows "X" :=
  c4_location_mean_perm_invariant exRows.reverse exRows (List.reverse_perm exRows) "X"

/-- Counterexample to C5 as stated: on a table that contains the name
and rating columns but lacks the location column, the top-rated query
raises a KeyError from the column projection instead of returning the
top-rated rows. -/
theorem c5_missing_location_column_raises :
    top_rated tNoLoc = some (Except.error "KeyError: ['location'] not in index") :=
  rfl

/-- Claim C5 (amended): on a table containing the name, rating,
location and cuisines columns, the top-rated query keeps at most 10
rows, lists them in descending rating order, and the kept rows
dominate every other rated row of the table; the displayed result is
the projection of those rows to the name, rate, location and cuisines
columns. -/
theorem c5_top_rated_largest (rows : List Row) :
    (nlargestRate rows 10).length ≤ 10 ∧
    (nlargestRate rows 10).Pairwise rdesc ∧
    (∃ rest, (nlargestRate rows 10 ++ rest).Perm
        (rows.filter (fun r => r.rate.isSome)) ∧
      ∀ x ∈ nlargestRate rows 10, ∀ y ∈ rest, rateV y ≤ rateV x) ∧
    (∀ t : Table, t.hasName = true → t.hasRate = true →
      t.hasLocation = true → t.hasCuisines = true →
      top_rated t = some (Except.ok ((nlargestRate t.rows 10).map projTop))) := by
  refine ⟨List.length_take_le 10 _, ?_, ?_, ?_⟩
  · exact (List.sorted_insertionSort rdesc _).sublist (List.take_sublist 10 _)
  · refine ⟨(List.insertionSort rdesc (rows.filter (fun r => r.rate.isSome))).drop 10,
      ?_, ?_⟩
    · simpa only [nlargestRate, List.take_append_drop] using
        List.perm_insertionSort rdesc (rows.filter (fun r => r.rate.isSome))
    · have hs : (List.insertionSort rdesc
          (rows.filter (fun r => r.rate.isSome))).Pairwise rdesc :=
        List.sorted_insertionSort rdesc _
      rw [← List.take_append_drop 10
        (List.insertionSort rdesc (rows.filter (fun r => r.rate.isSome)))] at hs
      intro x hx y hy
      simp only [nlargestRate] at hx
      exact (List.pairwise_append.mp hs).2.2 x hx y hy
  · intro t h1 h2 h3 h4
    simp [top_rated, h1, h2, h3, h4]

/-- Witness for C5 on the full example table. -/
theorem c5_top_rated_largest_witness :
    (nlargestRate exRows 10).Pairwise rdesc ∧
    top_rated tFull = some (Except.ok ((nlargestRate exRows 10).map projTop)) :=
  ⟨(c5_top_rated_largest exRows).2.1,
   (c5_top_rated_largest exRows).2.2.2 tFull rfl rfl rfl rfl⟩

/-- Claim C6: every query of the aggregation layer is read-only: run
against the process state, it returns its result and leaves the loaded
table exactly as it was; in particular the cost-tier query only ever
assigns its derived column to a local copy. -/
theorem c6_queries_read_only (s : DashState) :
    (runTotalRestaurants s).2 = s ∧
    (runAvgRating s).2 = s ∧
    (runTotalCities s).2 = s ∧
    (runAvgCost s).2 = s ∧
    (runCuisineCounts s).2 = s ∧
    (runRtypeCounts s).2 = s ∧
    (runLocationStats s).2 = s ∧
    (runTopRated s).2 = s ∧
    (runCostDist s).2 = s := by
  refine ⟨rfl, rfl, rfl, rfl, rfl, rfl, rfl, rfl, ?_⟩
  unfold runCostDist
  split <;> rfl

/-- Claim C9: the Cost vs Rating scatter samples exactly 500 rows, so
with both columns present it raises on any table of fewer than 500
rows and succeeds with a 500-row sample otherwise. -/
theorem c9_scatter_needs_500_rows (t : Table) :
    (t.hasCost = true → t.hasRate = true → t.rows.length < 500 →
      customer_scatter t =
        some (Except.error "ValueError: Cannot take a larger sample than population")) ∧
    (t.hasCost = true → t.hasRate = true → 500 ≤ t.rows.length →
      ∃ srows, customer_scatter t = some (Except.ok srows) ∧ srows.length = 500) := by
  constructor
  · intro h1 h2 hlt
    simp only [customer_scatter, sample, h1, h2, Bool.and_self, if_true]
    rw [if_neg (Nat.not_le.mpr hlt)]
  · intro h1 h2 hle
    refine ⟨t.rows.take 500, ?_, ?_⟩
    · simp only [customer_scatter, sample, h1, h2, Bool.and_self, if_true]
      rw [if_pos hle]
    · rw [List.length_take]
      exact Nat.min_eq_left hle

/-- A row with every column present, used to build a 500-row table. -/
def rFull : Row :=
  ⟨some "R", some 4, some "X", some 300, some "Thai", some "Cafe"⟩

/-- A 500-row table with every column present. -/
def tBig : Table :=
  ⟨true, true, true, true, true, true, List.replicate 500 rFull⟩

/-- Witness for C9: the three-row full table makes the scatter raise,
and the 500-row table yields a sample of exactly 500 rows. -/
theorem c9_scatter_needs_500_rows_witness :
    customer_scatter tFull =
      some (Except.error "ValueError: Cannot take a larger sample than population") ∧
    ∃ srows, customer_scatter tBig = some (Except.ok srows) ∧ srows.length = 500 :=
  ⟨(c9_scatter_needs_500_rows tFull).1 rfl rfl (by decide),
   (c9_scatter_needs_500_rows tBig).2 rfl rfl
     (by rw [show tBig.rows = List.replicate 500 rFull from rfl, List.length_replicate])⟩

/-- In `cost_dist`, a row only contributes through its assigned tier. -/
theorem valueCounts_congr {α : Type} [DecidableEq α]
    {col col' : List (Option α)} (h : col.filterMap id = col'.filterMap id) :
    valueCounts col = valueCounts col' := by
  simp only [valueCounts, keyCounts, h]

theorem filterMap_map_filter_isSome {β : Type} (f : Row → Option β) :
    ∀ rows : List Row,
      ((rows.filter (fun r => (f r).isSome)).map f).filterMap id =
        ((rows.map f).filterMap id)
  | [] => rfl
  | r :: rows => by
      rcases hf : f r with _ | b <;>
        simp [List.filter_cons, hf, filterMap_map_filter_isSome f rows]

/-- Claim C10: the cost-tier categorization is undefined below its
lower boundary: a missing cost gets no tier, a cost of zero or less
gets no tier, and the cost-category distribution is unchanged when the
rows without a tier are removed, i.e. those rows are not counted. -/
theorem c10_cost_category_lower_boundary :
    cost_category none = none ∧
    (∀ v : ℚ, v ≤ 0 → cost_category (some v) = none) ∧
    (∀ rows : List Row,
      cost_dist rows =
        cost_dist (rows.filter (fun r => (cost_category r.cost).isSome))) := by
  refine ⟨rfl, ?_, ?_⟩
  · intro v hv
    have hA : ¬ ((0 : ℚ) < v ∧ v ≤ 500) := by
      rintro ⟨h, _⟩
      linarith
    have hB : ¬ ((500 : ℚ) < v ∧ v ≤ 1000) := by
      rintro ⟨h, _⟩
      linarith
    have hC : ¬ ((1000 : ℚ) < v ∧ v ≤ 2000) := by
      rintro ⟨h, _⟩
      linarith
    have hD : ¬ ((2000 : ℚ) < v) := by linarith
    simp only [cost_category]
    rw [if_neg hA, if_neg hB, if_neg hC, if_neg hD]
  · intro rows
    unfold cost_dist
    refine (valueCounts_congr ?_).symm
    exact filterMap_map_filter_isSome (fun r => cost_category r.cost) rows

/-- Witness for C10 at cost 0, cost -5, a missing cost, and the
distribution over the example rows (whose costs are all missing). -/
theorem c10_cost_category_lower_boundary_witness :
    cost_category (some 0) = none ∧
    cost_category (some (-5)) = none ∧
    cost_dist exRows =
      cost_dist (exRows.filter (fun r => (cost_category r.cost).isSome)) :=
  ⟨c10_cost_category_lower_boundary.2.1 0 le_rfl,
   c10_cost_category_lower_boundary.2.1 (-5) (by norm_num),
   c10_cost_category_lower_boundary.2.2 exRows⟩

end Zomato
